import Mathlib

/-!
Verification model of the enrollment and QR-attendance engine of
Lernova-Attendsheets (`sheets-backend/db_manager.py`, endpoints in
`sheets-backend/main.py`).

The JSON records the Python code manipulates are embedded as Lean
structures; python dicts used as date-to-code attendance maps become
association lists with unique keys, where assignment updates the first
matching key in place or appends a fresh key at the end (exactly the
observable behaviour of insertion-ordered python dicts).  Timestamps that
are only stored (never compared) stay opaque strings; timestamps that the
code subtracts (`code_generated_at` in the QR session) are rationals
measuring seconds.  Each stateful method of `DatabaseManager` becomes a
pure function from the state it reads to the state it writes; a method
that raises `ValueError` before writing becomes a function into `Except`
whose error case returns no state, mirroring the fact that the python
exception escapes before any file is written.
-/

set_option autoImplicit false

/-- A per-class student record as stored in `Class.students`
(`db_manager.py` keys: `id`, `name`, `rollNo`, `email`, `attendance`). -/
structure StudentRecord where
  id : Nat
  name : String
  rollNo : String
  email : String
  attendance : List (String × String)
deriving DecidableEq, Repr

/-- An enrollment row as stored in `class_<id>_enrollments.json`. -/
structure Enrollment where
  student_id : String
  student_record_id : Nat
  class_id : String
  name : String
  roll_no : String
  email : String
  status : String
  enrolled_at : String
  re_enrolled_at : Option String
  unenrolled_at : Option String
  removed_by_teacher_at : Option String
deriving DecidableEq, Repr

/-- The `student_info` dict passed to `enroll_student`. -/
structure StudentInfo where
  name : String
  rollNo : String
  email : String
deriving DecidableEq, Repr

/-- Attendance thresholds of a class (`thresholds` JSON object). -/
structure Thresholds where
  excellent : ℚ
  good : ℚ
  moderate : ℚ
  atRisk : ℚ
deriving DecidableEq, Repr

/-- Class data as stored in `class_<id>.json` (the fields the engine reads). -/
structure ClassData where
  id : String
  teacher_id : String
  name : String
  students : List StudentRecord
  thresholds : Option Thresholds
deriving DecidableEq, Repr

/-- The combined persistent state the enrollment engine touches for one
class: the class file and its enrollment file. -/
structure ClassState where
  classData : ClassData
  enrollments : List Enrollment
deriving DecidableEq, Repr

/-- A QR session record (`qr_sessions/class_<id>.json`). -/
structure QrSession where
  class_id : String
  teacher_id : String
  rotation_interval : ℚ
  current_code : String
  code_generated_at : ℚ
  scanned_students : List Nat
  attendance_date : String
  status : String
  last_scan_at : Option ℚ
  stopped_at : Option ℚ
deriving DecidableEq, Repr

/-- Python dict assignment `att[d] = c` on an insertion-ordered dict with
unique keys: update the existing entry in place, else append. -/
def attSet (att : List (String × String)) (d c : String) : List (String × String) :=
  if (att.lookup d).isSome then
    att.map (fun p => if p.fst = d then (p.fst, c) else p)
  else
    att ++ [(d, c)]

/-- Update the first element satisfying `p` (a python `for ... if ...:
mutate; break` loop over a JSON list). -/
def updateFirst {α : Type} (p : α → Bool) (f : α → α) : List α → List α
  | [] => []
  | a :: as => if p a then f a :: as else a :: updateFirst p f as

/-- The predicate `e.get("student_id") == student_id and e.get("status") == "active"`. -/
def isActiveFor (student_id : String) (e : Enrollment) : Bool :=
  e.student_id == student_id && e.status == "active"

/-- `get_class_enrollments`: all enrollments of the class with status `active`. -/
def get_class_enrollments (enrollments : List Enrollment) : List Enrollment :=
  enrollments.filter (fun e => e.status == "active")

/-- The `student_record_id`s of the active enrollments (the set
`active_record_ids` computed by `get_class`, `stop_qr_session`, ...). -/
def activeRecordIds (enrollments : List Enrollment) : List Nat :=
  (get_class_enrollments enrollments).map (fun e => e.student_record_id)

/-- Result of `enroll_student` (the fields the claims are about). -/
structure EnrollResult where
  student_record_id : Nat
  status : String
deriving DecidableEq, Repr

/-- `DatabaseManager.enroll_student` (db_manager.py lines 719-882), for a
class that exists.  `now` is the timestamp string stamped into the state,
`freshId` the record id `_generate_student_record_id` would produce. -/
def enroll_student (now : String) (freshId : Nat) (student_id : String)
    (info : StudentInfo) (st : ClassState) : Except String (ClassState × EnrollResult) :=
  if st.enrollments.any (isActiveFor student_id) then
    Except.error "You are already enrolled in this class"
  else
    match st.enrollments.find? (fun e => e.student_id == student_id) with
    | some prev =>
        let rid := prev.student_record_id
        let enr2 := updateFirst (fun e => e.student_id == student_id)
          (fun e => { e with status := "active", re_enrolled_at := some now,
                             roll_no := info.rollNo }) st.enrollments
        let students := st.classData.students
        let students2 :=
          match students.find? (fun s => s.id == rid) with
          | some _ =>
              updateFirst (fun s => s.id == rid)
                (fun s => { s with rollNo := info.rollNo, name := info.name }) students
          | none =>
              students ++ [{ id := rid, name := info.name, rollNo := info.rollNo,
                             email := info.email, attendance := [] }]
        Except.ok
          ({ classData := { st.classData with students := students2 }, enrollments := enr2 },
           { student_record_id := rid, status := "re-enrolled" })
    | none =>
        let newE : Enrollment :=
          { student_id := student_id, student_record_id := freshId,
            class_id := st.classData.id, name := info.name, roll_no := info.rollNo,
            email := info.email, status := "active", enrolled_at := now,
            re_enrolled_at := none, unenrolled_at := none, removed_by_teacher_at := none }
        let newR : StudentRecord :=
          { id := freshId, name := info.name, rollNo := info.rollNo,
            email := info.email, attendance := [] }
        Except.ok
          ({ classData := { st.classData with students := st.classData.students ++ [newR] },
             enrollments := st.enrollments ++ [newE] },
           { student_record_id := freshId, status := "enrolled" })

/-- `DatabaseManager.unenroll_student` (db_manager.py lines 884-958):
returns `(success, new state)`; the not-actively-enrolled case returns
`False` before anything is written. -/
def unenroll_student (now : String) (student_id : String) (st : ClassState) :
    Bool × ClassState :=
  if st.enrollments.any (isActiveFor student_id) then
    let enr2 := updateFirst (isActiveFor student_id)
      (fun e => { e with status := "inactive", unenrolled_at := some now })
      st.enrollments
    (true, { st with enrollments := enr2 })
  else
    (false, st)

/-- `DatabaseManager.scan_qr_code` (db_manager.py lines 129-209).  The
session argument is the parsed session file (`none` when the file is
absent).  All `raise ValueError(...)` paths happen before any file write,
so the error case carries no state. -/
def scan_qr_code (now : ℚ) (student_id qr_code : String) (sess : Option QrSession)
    (st : ClassState) : Except String (QrSession × ClassState × String) :=
  match sess with
  | none => Except.error "No active session"
  | some session =>
    if session.status != "active" then Except.error "No active session"
    else if session.current_code != qr_code then Except.error "Invalid or expired QR code"
    else
      match st.enrollments.find? (isActiveFor student_id) with
      | none => Except.error "Student not actively enrolled in this class"
      | some e =>
        let d := session.attendance_date
        let rid := e.student_record_id
        let students := st.classData.students
        let students2 :=
          if students.any (fun s => s.id == rid) then
            updateFirst (fun s => s.id == rid)
              (fun s => { s with attendance := attSet s.attendance d "P" }) students
          else
            students ++ [{ id := rid, name := e.name, rollNo := e.roll_no,
                           email := e.email, attendance := [(d, "P")] }]
        let scanned :=
          if session.scanned_students.contains rid then session.scanned_students
          else session.scanned_students ++ [rid]
        Except.ok
          ({ session with scanned_students := scanned, last_scan_at := some now },
           { st with classData := { st.classData with students := students2 } },
           d)

/-- The condition under which `stop_qr_session` marks a record absent:
actively enrolled, not scanned, and no attendance entry for the session
date yet. -/
def absentCond (activeIds scanned : List Nat) (d : String) (s : StudentRecord) : Bool :=
  activeIds.contains s.id && !(scanned.contains s.id) && (s.attendance.lookup d).isNone

/-- Result dict of `stop_qr_session`. -/
structure StopResult where
  scanned_count : Nat
  absent_count : Nat
  date : String
deriving DecidableEq, Repr

/-- `DatabaseManager.stop_qr_session` (db_manager.py lines 212-273).
`scanned_ids = set(...)` becomes `dedup`; marking iterates over the class
student list and counts the newly marked records. -/
def stop_qr_session (now : ℚ) (teacher_id : String) (sess : Option QrSession)
    (st : ClassState) : Except String (QrSession × ClassState × StopResult) :=
  match sess with
  | none => Except.error "No active session"
  | some session =>
    if session.status != "active" then Except.error "No active session"
    else if session.teacher_id != teacher_id then Except.error "Unauthorized"
    else
      let d := session.attendance_date
      let scanned := session.scanned_students.dedup
      let activeIds := activeRecordIds st.enrollments
      let students2 := st.classData.students.map (fun s =>
        if absentCond activeIds scanned d s then
          { s with attendance := attSet s.attendance d "A" }
        else s)
      let absent := (st.classData.students.filter (absentCond activeIds scanned d)).length
      Except.ok
        ({ session with status := "stopped", stopped_at := some now },
         { st with classData := { st.classData with students := students2 } },
         { scanned_count := scanned.length, absent_count := absent, date := d })

/-- `DatabaseManager.get_qr_session` (db_manager.py lines 1149-1167): lazy
code rotation on read.  `now` is the read time, `freshCode` the code
`_generate_qr_code` would produce if rotation fires. -/
def get_qr_session (now : ℚ) (freshCode : String) (sess : Option QrSession) :
    Option QrSession :=
  match sess with
  | none => none
  | some session =>
    if session.status != "active" then none
    else if session.rotation_interval ≤ now - session.code_generated_at then
      some { session with current_code := freshCode, code_generated_at := now }
    else
      some session

/-- `DatabaseManager.get_class` (db_manager.py lines 496-518): the
teacher-facing read, filtered to records of active enrollments. -/
def get_class (st : ClassState) : ClassData :=
  { st.classData with students :=
      st.classData.students.filter (fun s => (activeRecordIds st.enrollments).contains s.id) }

/-- `DatabaseManager.get_class_by_id` (db_manager.py lines 520-531): the
raw read returning all students, documented "for internal use". -/
def get_class_by_id (st : ClassState) : ClassData :=
  st.classData

/-- The `/classes/{class_id}` endpoint `get_class` in main.py (lines
1266-1277): it returns `db.get_class_by_id(class_id)` to the teacher,
without the active-enrollment filter. -/
def api_get_class (st : ClassState) : ClassData :=
  get_class_by_id st

/-- Python `updated_students_map = {s["id"]: s for s in incoming}` lookup:
with duplicate ids the later entry wins, hence the search on the reversed
list. -/
def lastWithId (l : List StudentRecord) (i : Nat) : Option StudentRecord :=
  l.reverse.find? (fun t => t.id == i)

/-- `DatabaseManager.update_class` (db_manager.py lines 561-623), the
parts that decide the claims: enrollments of record ids missing from the
incoming list are flipped inactive and stamped, and the final student list
is built by walking the previously stored list, substituting the incoming
record with the same id when there is one. -/
def update_class (now : String) (incoming : List StudentRecord) (st : ClassState) :
    ClassState :=
  let current := st.classData.students
  let deleted : List Nat :=
    (current.map (fun s => s.id)).filter (fun i => !(incoming.any (fun t => t.id == i)))
  let enr2 := st.enrollments.map (fun e =>
    if deleted.contains e.student_record_id && e.status == "active" then
      { e with status := "inactive", removed_by_teacher_at := some now }
    else e)
  let finalStudents := current.map (fun s =>
    match lastWithId incoming s.id with
    | some t => t
    | none => s)
  { classData := { st.classData with students := finalStudents }, enrollments := enr2 }

/-- Number of attendance values in `["P", "L"]` (the `present` counter of
`calculate_class_statistics`). -/
def countPL (att : List (String × String)) : Nat :=
  (att.filter (fun p => p.snd == "P" || p.snd == "L")).length

/-- Attendance percentage of one record: `(present / total * 100)` with
`0.0` when there are no marked days. -/
def studentPercentage (s : StudentRecord) : ℚ :=
  if s.attendance.length = 0 then 0
  else (countPL s.attendance : ℚ) / (s.attendance.length : ℚ) * 100

/-- Python `round(x, 3)` up to the tie-breaking rule, which no claim
exercises. -/
def round3 (q : ℚ) : ℚ :=
  ((round (q * 1000) : ℤ) : ℚ) / 1000

/-- The default thresholds used when the class stores none. -/
def defaultThresholds : Thresholds :=
  { excellent := 95, good := 90, moderate := 85, atRisk := 85 }

/-- The thresholds `calculate_class_statistics` actually uses. -/
def thresholdsOf (cd : ClassData) : Thresholds :=
  cd.thresholds.getD defaultThresholds

/-- One iteration of the statistics loop over `(total_attendance, at_risk,
excellent)`: records with an empty attendance map are skipped entirely;
otherwise the percentage is accumulated and the record classified by the
`if/elif` ladder. -/
def statsStep (th : Thresholds) (acc : ℚ × Nat × Nat) (s : StudentRecord) : ℚ × Nat × Nat :=
  if s.attendance.isEmpty then acc
  else
    let pct := studentPercentage s
    if th.excellent ≤ pct then (acc.1 + pct, acc.2.1, acc.2.2 + 1)
    else if pct < th.moderate then (acc.1 + pct, acc.2.1 + 1, acc.2.2)
    else (acc.1 + pct, acc.2.1, acc.2.2)

/-- Result of `calculate_class_statistics`. -/
structure ClassStats where
  total_students : Nat
  avg_attendance : ℚ
  at_risk_count : Nat
  excellent_count : Nat
deriving DecidableEq, Repr

/-- The records of the class whose id is in the active-enrollment set
(the `active_students` list of `calculate_class_statistics`). -/
def activeStudents (cd : ClassData) (enrollments : List Enrollment) : List StudentRecord :=
  cd.students.filter (fun s => (activeRecordIds enrollments).contains s.id)

/-- `DatabaseManager.calculate_class_statistics` (db_manager.py lines
652-706), called with a `class_id` so the active filter applies. -/
def calculate_class_statistics (cd : ClassData) (enrollments : List Enrollment) : ClassStats :=
  let active := activeStudents cd enrollments
  if active.isEmpty then
    { total_students := 0, avg_attendance := 0, at_risk_count := 0, excellent_count := 0 }
  else
    let th := thresholdsOf cd
    let acc := active.foldl (statsStep th) (0, 0, 0)
    { total_students := active.length,
      avg_attendance := round3 (acc.1 / (active.length : ℚ)),
      at_risk_count := acc.2.1,
      excellent_count := acc.2.2 }

/-- The shared ledger write `record.attendance[date] = code` applied to
the first record with the given id (as `scan_qr_code` does for "P"). -/
def mark_attendance (rid : Nat) (d c : String) (students : List StudentRecord) :
    List StudentRecord :=
  updateFirst (fun s => s.id == rid) (fun s => { s with attendance := attSet s.attendance d c })
    students

/-- Apply a list of ledger writes `(record id, date, code)` to the class's
student list, leaving enrollments alone. -/
def applyMarks (marks : List (Nat × String × String)) (st : ClassState) : ClassState :=
  let students2 := marks.foldl (fun l m => mark_attendance m.1 m.2.1 m.2.2 l)
    st.classData.students
  { st with classData := { st.classData with students := students2 } }

/-- The attendance map of the first stored record with the given id. -/
def recordAttendance (st : ClassState) (rid : Nat) : Option (List (String × String)) :=
  (st.classData.students.find? (fun s => s.id == rid)).map (fun s => s.attendance)

/-- The fresh StudentRecord a new enrollment appends (empty attendance). -/
def newEnrollmentRecord (freshId : Nat) (info : StudentInfo) : StudentRecord :=
  ⟨freshId, info.name, info.rollNo, info.email, []⟩

/-- The fresh Enrollment row a new enrollment appends. -/
def newEnrollmentRow (sid : String) (freshId : Nat) (info : StudentInfo)
    (cid now : String) : Enrollment :=
  ⟨sid, freshId, cid, info.name, info.rollNo, info.email, "active", now, none, none, none⟩

/-- The state `enroll_student` produces on the new-enrollment branch. -/
def afterNewEnroll (now : String) (freshId : Nat) (sid : String) (info : StudentInfo)
    (st : ClassState) : ClassState :=
  { classData := { st.classData with students := (st.classData.students ++ [newEnrollmentRecord freshId info]) },
    enrollments := st.enrollments ++ [newEnrollmentRow sid freshId info st.classData.id now] }

/-! Definitions written from the specification text (never from the code),
used to compare the code's behaviour against the spec's words. -/

/-- Spec-modelled count: "at_risk_count = number of active records with
percentage < thresholds.moderate" (no exemption for records without
marked days). -/
def claimAtRiskCount (th : Thresholds) (l : List StudentRecord) : Nat :=
  l.countP (fun s => decide (studentPercentage s < th.moderate))

/-- Spec-modelled merge: "the union of the incoming records (keyed by id,
with values taken from the input, replacing matching stored records) and
all previously stored records whose id is absent from the incoming
list". -/
def claimMergedStudents (incoming stored : List StudentRecord) : List StudentRecord :=
  incoming ++ stored.filter (fun s => !(incoming.any (fun t => t.id == s.id)))

/-! Characterizations used in theorem statements. -/

/-- What `calculate_class_statistics` counts as excellent: records with at
least one marked day whose percentage reaches the excellent threshold. -/
def excellentCountCode (th : Thresholds) (l : List StudentRecord) : Nat :=
  l.countP (fun s => !s.attendance.isEmpty && decide (th.excellent ≤ studentPercentage s))

/-- What `calculate_class_statistics` counts as at risk: records with at
least one marked day, not counted excellent, whose percentage is below the
moderate threshold. -/
def atRiskCountCode (th : Thresholds) (l : List StudentRecord) : Nat :=
  l.countP (fun s => !s.attendance.isEmpty &&
    !(decide (th.excellent ≤ studentPercentage s)) &&
    decide (studentPercentage s < th.moderate))

/-- What `stop_qr_session` does to one stored record. -/
def stopMarked (activeIds scanned : List Nat) (d : String) (s : StudentRecord) :
    StudentRecord :=
  if absentCond activeIds scanned d s then
    { s with attendance := s.attendance ++ [(d, "A")] }
  else s

/-! Concrete fixtures used by witnesses and counterexamples. -/

def exInfo1 : StudentInfo :=
  { name := "Alice", rollNo := "R1", email := "alice@example.com" }

def exInfo2 : StudentInfo :=
  { name := "Alicia", rollNo := "R2", email := "alice@example.com" }

def exRec1 : StudentRecord :=
  { id := 1, name := "Alice", rollNo := "R1", email := "alice@example.com",
    attendance := [("2024-03-01", "P"), ("2024-03-02", "A")] }

def exRec2 : StudentRecord :=
  { id := 2, name := "Bob", rollNo := "R9", email := "bob@example.com", attendance := [] }

def exRec3 : StudentRecord :=
  { id := 3, name := "Carol", rollNo := "R3", email := "carol@example.com",
    attendance := [("2024-03-01", "L")] }

def exEnr1 : Enrollment :=
  { student_id := "alice", student_record_id := 1, class_id := "c1", name := "Alice",
    roll_no := "R1", email := "alice@example.com", status := "active",
    enrolled_at := "2024-03-01T08:00:00", re_enrolled_at := none,
    unenrolled_at := none, removed_by_teacher_at := none }

def exEnr2 : Enrollment :=
  { exEnr1 with
    student_id := "bob", student_record_id := 2, name := "Bob",
    roll_no := "R9", email := "bob@example.com", status := "inactive" }

def exEnr3 : Enrollment :=
  { exEnr1 with
    student_id := "carol", student_record_id := 3, name := "Carol",
    roll_no := "R3", email := "carol@example.com" }

def exClass1 : ClassData :=
  { id := "c1", teacher_id := "t1", name := "Math",
    students := [exRec1, exRec2, exRec3], thresholds := none }

def exState1 : ClassState :=
  { classData := exClass1, enrollments := [exEnr1, exEnr2, exEnr3] }

def exSession1 : QrSession :=
  { class_id := "c1", teacher_id := "t1", rotation_interval := 5,
    current_code := "ZZZZZZZZ", code_generated_at := 0, scanned_students := [1],
    attendance_date := "2024-03-02", status := "active",
    last_scan_at := none, stopped_at := none }

def exStateInactiveOnly : ClassState :=
  { classData :=
      { id := "c2", teacher_id := "t1", name := "Hist",
        students := [{ id := 7, name := "Dan", rollNo := "R7",
                       email := "dan@example.com",
                       attendance := [("2024-02-02", "P")] }],
        thresholds := none },
    enrollments := [{ exEnr1 with
                      student_id := "dan", student_record_id := 7,
                      class_id := "c2", status := "inactive" }] }

def exClassC5 : ClassData :=
  { id := "c5", teacher_id := "t1", name := "Bio", students := [exRec2],
    thresholds := none }

def exEnrC5 : Enrollment :=
  { exEnr1 with student_id := "bob", student_record_id := 2, class_id := "c5" }

def exStC4 : ClassState :=
  { classData := { id := "c4", teacher_id := "t1", name := "Geo",
                   students := [exRec1], thresholds := none },
    enrollments := [{ exEnr1 with class_id := "c4" }] }

def exIncC4 : List StudentRecord :=
  [{ exRec1 with name := "Alice2" }, { exRec3 with id := 33 }]

def exStC4w : ClassState :=
  { classData := { id := "c4", teacher_id := "t1", name := "Geo",
                   students := [exRec1, exRec2], thresholds := none },
    enrollments := [{ exEnr1 with class_id := "c4" }] }

def exIncC4w : List StudentRecord :=
  [{ exRec1 with name := "Alice2" }, { exRec3 with id := 42 }]

def exRecC9 : StudentRecord :=
  { id := 5, name := "Old", rollNo := "r1", email := "bob@example.com",
    attendance := [("2024-01-05", "P")] }

def exEnrC9 : Enrollment :=
  { exEnr1 with
    student_id := "bob", student_record_id := 5, class_id := "c9",
    name := "Old", roll_no := "r1", email := "bob@example.com",
    status := "inactive" }

def exStC9 : ClassState :=
  { classData := { id := "c9", teacher_id := "t1", name := "Chem",
                   students := [exRecC9], thresholds := none },
    enrollments := [exEnrC9] }

def exInfoC9 : StudentInfo :=
  { name := "New", rollNo := "r2", email := "bob@example.com" }

def exStEmpty : ClassState :=
  { classData := { id := "c0", teacher_id := "t0", name := "Sci", students := [],
                   thresholds := none },
    enrollments := [] }

/-! Generic lemmas about the first-match update used to model in-place
mutation of the first matching element of a JSON list. -/

theorem updateFirst_append_of_none {α : Type} (p : α → Bool) (f : α → α)
    (l1 l2 : List α) (h : ∀ a ∈ l1, p a = false) :
    updateFirst p f (l1 ++ l2) = l1 ++ updateFirst p f l2 := by
  induction l1 with
  | nil => simp
  | cons a as ih =>
      have ha : p a = false := h a (by simp)
      simp only [List.cons_append, updateFirst, ha, Bool.false_eq_true, if_false,
        List.cons.injEq, true_and]
      exact ih (fun x hx => h x (by simp [hx]))

theorem updateFirst_cons_of_true {α : Type} (p : α → Bool) (f : α → α)
    (a : α) (l : List α) (ha : p a = true) :
    updateFirst p f (a :: l) = f a :: l := by
  simp [updateFirst, ha]

theorem updateFirst_split {α : Type} (p : α → Bool) (f : α → α)
    (l1 l2 : List α) (a : α) (h : ∀ x ∈ l1, p x = false) (ha : p a = true) :
    updateFirst p f (l1 ++ a :: l2) = l1 ++ f a :: l2 := by
  rw [updateFirst_append_of_none p f l1 (a :: l2) h, updateFirst_cons_of_true p f a l2 ha]

theorem find?_append_of_none {α : Type} (p : α → Bool) (l1 l2 : List α)
    (h : ∀ a ∈ l1, p a = false) :
    (l1 ++ l2).find? p = l2.find? p := by
  rw [List.find?_append]
  have h1 : l1.find? p = none := List.find?_eq_none.mpr (fun x hx => by simp [h x hx])
  rw [h1, Option.none_or]

theorem find?_updateFirst {α : Type} (p : α → Bool) (f : α → α)
    (hp : ∀ a, p (f a) = p a) (l : List α) :
    (updateFirst p f l).find? p = (l.find? p).map f := by
  induction l with
  | nil => simp [updateFirst]
  | cons a as ih =>
      by_cases ha : p a = true
      · simp [updateFirst, ha, List.find?_cons, hp a]
      · have ha' : p a = false := by simpa using ha
        simp [updateFirst, ha', List.find?_cons, ih]

theorem map_updateFirst {α β : Type} (p : α → Bool) (f : α → α) (g : α → β)
    (hg : ∀ a, g (f a) = g a) (l : List α) :
    (updateFirst p f l).map g = l.map g := by
  induction l with
  | nil => simp [updateFirst]
  | cons a as ih =>
      by_cases ha : p a = true
      · simp [updateFirst, ha, hg a]
      · have ha' : p a = false := by simpa using ha
        simp [updateFirst, ha', ih]

theorem any_eq_false_of_all {α : Type} (p : α → Bool) (l : List α)
    (h : ∀ a ∈ l, p a = false) : l.any p = false := by
  simp only [List.any_eq_false]
  intro x hx
  simp [h x hx]

/-! Claim C7: a scan with a wrong code fails with the invalid-code error
and mutates nothing. -/

/-- C7: for every scan whose submitted code differs from the session's
current code (on an active session), `scan_qr_code` raises the
invalid-code error before any write: no attendance entry is written and
`scanned_students` is unchanged, which the embedding expresses by the
error result carrying no successor state. -/
theorem c7_scan_wrong_code (now : ℚ) (student_id qr_code : String)
    (session : QrSession) (st : ClassState)
    (hact : session.status = "active") (hcode : qr_code ≠ session.current_code) :
    scan_qr_code now student_id qr_code (some session) st =
      Except.error "Invalid or expired QR code" := by
  have h1 : (session.status != "active") = false := by simp [hact]
  have h2 : (session.current_code != qr_code) = true := by
    simp only [bne_iff_ne, ne_eq]
    exact fun h => hcode h.symm
  simp [scan_qr_code, h1, h2]

/-- C7 witness: the theorem applied to a concrete active session and a
wrong submitted code. -/
theorem c7_scan_wrong_code_witness :
    scan_qr_code 6 "alice" "AAAAAAAA" (some exSession1) exState1 =
      Except.error "Invalid or expired QR code" :=
  c7_scan_wrong_code 6 "alice" "AAAAAAAA" exSession1 exState1 rfl (by decide)

/-! Claim C10: scanning validates only the stored current code and never
rotates, so a stale-but-stored code still succeeds after the rotation
interval has elapsed. -/

/-- C10: a scan submitting the session's stored `current_code` succeeds
(with an active session and an active enrollment) even when `now` is at
least `rotation_interval` past `code_generated_at`; the scan leaves
`current_code` and `code_generated_at` untouched, i.e. it never rotates. -/
theorem c10_scan_ignores_rotation (now : ℚ) (student_id : String)
    (session : QrSession) (st : ClassState) (e : Enrollment)
    (hact : session.status = "active")
    (_helapsed : session.rotation_interval ≤ now - session.code_generated_at)
    (henr : st.enrollments.find? (isActiveFor student_id) = some e) :
    ∃ sess2 st2,
      scan_qr_code now student_id session.current_code (some session) st =
        Except.ok (sess2, st2, session.attendance_date) ∧
      sess2.current_code = session.current_code ∧
      sess2.code_generated_at = session.code_generated_at := by
  have h1 : (session.status != "active") = false := by simp [hact]
  have h2 : (session.current_code != session.current_code) = false := by simp
  simp only [scan_qr_code, h1, Bool.false_eq_true, if_false, h2, henr]
  split
  · exact ⟨_, _, rfl, rfl, rfl⟩
  · exact ⟨_, _, rfl, rfl, rfl⟩

/-- C10 witness: at `now = 100`, twenty times the 5-second rotation
interval after the code was generated, the stored code still scans
successfully. -/
theorem c10_scan_ignores_rotation_witness :
    ∃ sess2 st2,
      scan_qr_code 100 "alice" exSession1.current_code (some exSession1) exState1 =
        Except.ok (sess2, st2, exSession1.attendance_date) ∧
      sess2.current_code = exSession1.current_code ∧
      sess2.code_generated_at = exSession1.code_generated_at :=
  c10_scan_ignores_rotation 100 "alice" exSession1 exState1 exEnr1 rfl
    (by norm_num [exSession1]) (by decide)

/-! Claim C6: lazy code rotation on read. -/

/-- C6 (amended): on an active session, a read strictly less than
`rotation_interval` after `code_generated_at` returns the stored session
unchanged (same code, same timestamp); a read at least `rotation_interval`
after `code_generated_at` returns the freshly generated code and resets
`code_generated_at` to the read time.  Hence two reads that both fall
inside the code's own interval agree, but two reads a short time apart may
straddle the rotation boundary and differ (see the counterexample). -/
theorem c6_lazy_rotation (session : QrSession) (now : ℚ) (freshCode : String)
    (hact : session.status = "active") :
    (now - session.code_generated_at < session.rotation_interval →
       get_qr_session now freshCode (some session) = some session) ∧
    (session.rotation_interval ≤ now - session.code_generated_at →
       get_qr_session now freshCode (some session) =
         some { session with current_code := freshCode, code_generated_at := now }) := by
  have h1 : (session.status != "active") = false := by simp [hact]
  constructor
  · intro hlt
    have h2 : ¬ session.rotation_interval ≤ now - session.code_generated_at :=
      not_le.mpr hlt
    simp [get_qr_session, h1, h2]
  · intro hle
    simp [get_qr_session, h1, hle]

/-- C6 counterexample: with `code_generated_at = 0` and
`rotation_interval = 5`, reads at `t = 4` and `t = 5` are only one second
apart — less than the rotation interval — yet return different codes
("ZZZZZZZZ" then the fresh "BBBBBBBB"), refuting the claim's "two reads
less than rotation_interval apart return the same code".  The first read
leaves the session unchanged, so the second read sees the original
timestamp. -/
theorem c6_counterexample :
    get_qr_session 4 "AAAAAAAA" (some exSession1) = some exSession1 ∧
    (get_qr_session 5 "BBBBBBBB" (some exSession1)).map QrSession.current_code =
      some "BBBBBBBB" ∧
    exSession1.current_code = "ZZZZZZZZ" ∧
    (5 : ℚ) - 4 < exSession1.rotation_interval ∧
    ("ZZZZZZZZ" : String) ≠ "BBBBBBBB" := by
  refine ⟨?_, ?_, rfl, by norm_num [exSession1], by decide⟩
  · norm_num [get_qr_session, exSession1]
  · norm_num [get_qr_session, exSession1]

/-- C6 witness: the theorem applied at a concrete session, once below the
interval (read at t = 3 returns the stored session unchanged) and once at
the interval (read at t = 10 returns the fresh code with the timestamp
reset). -/
theorem c6_lazy_rotation_witness :
    get_qr_session 3 "NEWCODE1" (some exSession1) = some exSession1 ∧
    get_qr_session 10 "NEWCODE1" (some exSession1) =
      some { exSession1 with current_code := "NEWCODE1", code_generated_at := 10 } :=
  ⟨(c6_lazy_rotation exSession1 3 "NEWCODE1" rfl).1 (by norm_num [exSession1]),
   (c6_lazy_rotation exSession1 10 "NEWCODE1" rfl).2 (by norm_num [exSession1])⟩

/-! Claim C2: the active-enrollment filter on teacher-facing class reads. -/

/-- C2 (code bug evidence): in a state whose only enrollment is inactive,
`DatabaseManager.get_class` correctly filters the record out while the
teacher-facing `/classes/{class_id}` endpoint of main.py, which returns
`get_class_by_id` ("for internal use" per its own docstring), still shows
record 7 to the teacher even though the active-enrollment set is empty;
the record does remain present in storage. -/
theorem c2_endpoint_shows_inactive :
    (api_get_class exStateInactiveOnly).students.map (fun s => s.id) = [7] ∧
    activeRecordIds exStateInactiveOnly.enrollments = [] ∧
    (get_class exStateInactiveOnly).students = [] ∧
    exStateInactiveOnly.classData.students.map (fun s => s.id) = [7] := by
  refine ⟨rfl, rfl, ?_, rfl⟩
  decide

/-! Claim C8: unenroll reports a soft boolean failure and flips exactly
the first active row. -/

/-- C8: `unenroll_student` returns a success/failure boolean.  When no
active enrollment row exists for the student it returns `false` with the
state untouched (no exception reaches the caller: the embedding returns a
plain pair).  When an active row exists, the first such row has its status
set to inactive and `unenrolled_at` stamped, everything else — including
the class file with the student's record and attendance — is unchanged,
and the call returns `true`. -/
theorem c8_unenroll_soft_failure (now student_id : String) (st : ClassState) :
    ((∀ e ∈ st.enrollments, isActiveFor student_id e = false) →
       unenroll_student now student_id st = (false, st)) ∧
    (∀ (l1 l2 : List Enrollment) (prev : Enrollment),
       st.enrollments = l1 ++ prev :: l2 →
       (∀ e ∈ l1, isActiveFor student_id e = false) →
       isActiveFor student_id prev = true →
       unenroll_student now student_id st =
         (true, { st with enrollments :=
            (l1 ++ { prev with status := "inactive", unenrolled_at := some now } :: l2) })) := by
  constructor
  · intro h
    have hany : st.enrollments.any (isActiveFor student_id) = false :=
      any_eq_false_of_all _ _ h
    simp [unenroll_student, hany]
  · intro l1 l2 prev hsplit hl1 hprev
    have hany : st.enrollments.any (isActiveFor student_id) = true := by
      rw [hsplit]
      simp [List.any_append, hprev]
    have hupd : updateFirst (isActiveFor student_id)
        (fun e => { e with status := "inactive", unenrolled_at := some now })
        st.enrollments =
        l1 ++ { prev with status := "inactive", unenrolled_at := some now } :: l2 := by
      rw [hsplit]
      exact updateFirst_split _ _ l1 l2 prev hl1 hprev
    simp [unenroll_student, hany, hupd]

/-- C8 witness: unenrolling a student with no enrollment row returns
`false` and the unchanged state; unenrolling the actively enrolled
"alice" flips her row to inactive with the timestamp stamped. -/
theorem c8_unenroll_soft_failure_witness :
    unenroll_student "2024-05-01T00:00:00" "nobody" exState1 = (false, exState1) ∧
    unenroll_student "2024-05-01T00:00:00" "alice" exState1 =
      (true, { exState1 with enrollments :=
         [{ exEnr1 with status := "inactive", unenrolled_at := some "2024-05-01T00:00:00" },
          exEnr2, exEnr3] }) := by
  constructor
  · exact (c8_unenroll_soft_failure "2024-05-01T00:00:00" "nobody" exState1).1 (by decide)
  · have h := (c8_unenroll_soft_failure "2024-05-01T00:00:00" "alice" exState1).2
      [] [exEnr2, exEnr3] exEnr1 rfl (by decide) (by decide)
    simpa using h

/-! Claim C3: stopping a session marks exactly the active, unscanned,
still-unmarked records absent and reports the counts. -/

/-- C3: stopping an active session (by its teacher) walks the class's
stored records and applies `stopMarked`: a record whose id is actively
enrolled, not in `scanned_students`, and has no entry yet for the
session's `attendance_date` gets `"A"` appended for that date; every other
record — in particular any record whose entry for the date is already set,
e.g. to `"P"` by a scan — is kept with its prior value unchanged (first
conjunct).  The result reports `scanned_count` as the size of the
`scanned_students` set, `absent_count` as the number of newly marked
records, and the session's `attendance_date`; the session is stopped and
`stopped_at` stamped. -/
theorem c3_stop_marks_absences (now : ℚ) (teacher_id : String) (session : QrSession)
    (st : ClassState) (hact : session.status = "active")
    (hteach : session.teacher_id = teacher_id) :
    (∀ s : StudentRecord, (s.attendance.lookup session.attendance_date).isSome = true →
       stopMarked (activeRecordIds st.enrollments) session.scanned_students.dedup
         session.attendance_date s = s) ∧
    stop_qr_session now teacher_id (some session) st =
      Except.ok
        ({ session with status := "stopped", stopped_at := some now },
         { st with classData := { st.classData with students :=
             (st.classData.students.map (stopMarked (activeRecordIds st.enrollments)
               session.scanned_students.dedup session.attendance_date)) } },
         { scanned_count := session.scanned_students.dedup.length,
           absent_count := (st.classData.students.filter
             (absentCond (activeRecordIds st.enrollments) session.scanned_students.dedup
                session.attendance_date)).length,
           date := session.attendance_date }) := by
  have h1 : (session.status != "active") = false := by simp [hact]
  have h2 : (session.teacher_id != teacher_id) = false := by simp [hteach]
  constructor
  · intro s hs
    have hc : absentCond (activeRecordIds st.enrollments) session.scanned_students.dedup
        session.attendance_date s = false := by
      simp [absentCond, hs]
    simp [stopMarked, hc]
  · have hmap : st.classData.students.map (fun s =>
        if absentCond (activeRecordIds st.enrollments) session.scanned_students.dedup
             session.attendance_date s = true then
          { s with attendance := attSet s.attendance session.attendance_date "A" }
        else s) =
        st.classData.students.map (stopMarked (activeRecordIds st.enrollments)
          session.scanned_students.dedup session.attendance_date) := by
      refine List.map_congr_left (fun s _ => ?_)
      by_cases hc : absentCond (activeRecordIds st.enrollments)
          session.scanned_students.dedup session.attendance_date s = true
      · have hnone : (s.attendance.lookup session.attendance_date).isNone = true := by
          have := hc
          simp only [absentCond, Bool.and_eq_true] at this
          exact this.2
        have hsome : (s.attendance.lookup session.attendance_date).isSome = false := by
          cases hh : s.attendance.lookup session.attendance_date
          · rfl
          · rw [hh] at hnone
            simp at hnone
        simp [stopMarked, hc, attSet, hsome]
      · have hc' : absentCond (activeRecordIds st.enrollments)
            session.scanned_students.dedup session.attendance_date s = false := by
          simpa using hc
        simp [stopMarked, hc']
    simp [stop_qr_session, h1, h2, hmap]

/-- C3 witness: stopping the session for the class where records 1 and 3
are actively enrolled, record 1 scanned (already "P"-free here but in the
scanned set) and record 3 unscanned with no entry for the date: record 3
gets "A", records 1 and 2 are untouched, and the result reports one
scanned and one newly absent student. -/
theorem c3_stop_marks_absences_witness :
    stop_qr_session 7 "t1" (some exSession1) exState1 =
      Except.ok
        ({ exSession1 with status := "stopped", stopped_at := some 7 },
         { exState1 with classData := { exState1.classData with students :=
             [exRec1, exRec2,
              { exRec3 with attendance := [("2024-03-01", "L"), ("2024-03-02", "A")] }] } },
         { scanned_count := 1, absent_count := 1, date := "2024-03-02" }) := by
  have h := (c3_stop_marks_absences 7 "t1" exSession1 exState1 rfl rfl).2
  rw [h]
  simp [exState1, exClass1, exSession1, exRec1, exRec2, exRec3, exEnr1, exEnr2, exEnr3,
    stopMarked, absentCond, activeRecordIds, get_class_enrollments]

/-! Claim C5: class statistics. -/

/-- The statistics accumulator loop computed by folding `statsStep` equals
the percentage total plus the two classification counts. -/
theorem statsStep_foldl_characterization (th : Thresholds) (l : List StudentRecord)
    (init : ℚ × Nat × Nat) :
    l.foldl (statsStep th) init =
      (init.1 + (l.map studentPercentage).sum,
       init.2.1 + atRiskCountCode th l,
       init.2.2 + excellentCountCode th l) := by
  induction l generalizing init with
  | nil => simp [atRiskCountCode, excellentCountCode]
  | cons a as ih =>
      rw [List.foldl_cons, ih]
      by_cases hemp : a.attendance.isEmpty = true
      · have hpct : studentPercentage a = 0 := by
          have ha : a.attendance = [] := List.isEmpty_iff.mp hemp
          simp [studentPercentage, ha]
        have h1 : statsStep th init a = init := by simp [statsStep, hemp]
        rw [h1]
        simp [atRiskCountCode, excellentCountCode, List.countP_cons, hemp, hpct]
      · have hemp' : a.attendance.isEmpty = false := by simpa using hemp
        by_cases hexc : th.excellent ≤ studentPercentage a
        · have h1 : statsStep th init a =
              (init.1 + studentPercentage a, init.2.1, init.2.2 + 1) := by
            simp [statsStep, hemp', hexc]
          rw [h1]
          simp only [atRiskCountCode, excellentCountCode, List.countP_cons,
            List.map_cons, List.sum_cons, hemp', decide_eq_true hexc, Bool.not_true,
            Bool.not_false, Bool.true_and, Bool.false_and, Bool.and_false,
            Bool.false_eq_true, if_false, if_true, Prod.mk.injEq]
          refine ⟨by ring, by omega, by omega⟩
        · have hexc' : decide (th.excellent ≤ studentPercentage a) = false := by
            simpa using hexc
          by_cases hmod : studentPercentage a < th.moderate
          · have h1 : statsStep th init a =
                (init.1 + studentPercentage a, init.2.1 + 1, init.2.2) := by
              simp [statsStep, hemp', hexc, hmod]
            rw [h1]
            simp only [atRiskCountCode, excellentCountCode, List.countP_cons,
              List.map_cons, List.sum_cons, hemp', hexc', decide_eq_true hmod,
              Bool.not_true, Bool.not_false, Bool.true_and, Bool.and_true,
              Bool.and_false, Bool.false_eq_true, if_false, if_true, Prod.mk.injEq]
            refine ⟨by ring, by omega, by omega⟩
          · have hmod' : decide (studentPercentage a < th.moderate) = false := by
              simpa using hmod
            have h1 : statsStep th init a =
                (init.1 + studentPercentage a, init.2.1, init.2.2) := by
              simp [statsStep, hemp', hexc, hmod]
            rw [h1]
            simp only [atRiskCountCode, excellentCountCode, List.countP_cons,
              List.map_cons, List.sum_cons, hemp', hexc', hmod', Bool.not_true,
              Bool.not_false, Bool.true_and, Bool.and_true, Bool.and_false,
              Bool.false_eq_true, if_false, if_true, Prod.mk.injEq]
            refine ⟨by ring, by omega, by omega⟩

/-- C5 (amended): over the active records of a class,
`calculate_class_statistics` returns `total_students` = number of active
records and `avg_attendance` = the mean of their percentages (0 for a
record with no marked days) rounded to 3 decimals; but the two
classification counts only consider records with at least one marked day:
`excellent_count` counts those whose percentage reaches
`thresholds.excellent`, and `at_risk_count` counts those not counted
excellent whose percentage is below `thresholds.moderate` — a record with
an empty attendance map is never classified at-risk or excellent, contrary
to the claim as stated (see the counterexample).  An empty active set
yields the all-zero result without any division. -/
theorem c5_class_statistics (cd : ClassData) (enrollments : List Enrollment) :
    (activeStudents cd enrollments = [] →
       calculate_class_statistics cd enrollments =
         { total_students := 0, avg_attendance := 0, at_risk_count := 0,
           excellent_count := 0 }) ∧
    (activeStudents cd enrollments ≠ [] →
       calculate_class_statistics cd enrollments =
         { total_students := (activeStudents cd enrollments).length,
           avg_attendance := round3 (((activeStudents cd enrollments).map
             studentPercentage).sum / ((activeStudents cd enrollments).length : ℚ)),
           at_risk_count := atRiskCountCode (thresholdsOf cd) (activeStudents cd enrollments),
           excellent_count :=
             excellentCountCode (thresholdsOf cd) (activeStudents cd enrollments) }) := by
  constructor
  · intro h
    have hemp : (activeStudents cd enrollments).isEmpty = true := by
      simp [List.isEmpty_iff, h]
    simp [calculate_class_statistics, hemp]
  · intro h
    have hemp : (activeStudents cd enrollments).isEmpty = false := by
      cases hh : (activeStudents cd enrollments).isEmpty
      · rfl
      · exact absurd (List.isEmpty_iff.mp hh) h
    simp only [calculate_class_statistics, hemp, Bool.false_eq_true, if_false,
      statsStep_foldl_characterization, zero_add]

/-- C5 counterexample: a class whose single active record has an empty
attendance map.  Its percentage is 0, below the default moderate threshold
85, so the claim counts it at risk (the spec-modelled `claimAtRiskCount`
is 1), but the code skips records without marked days and reports
`at_risk_count = 0`. -/
theorem c5_counterexample :
    (calculate_class_statistics exClassC5 [exEnrC5]).at_risk_count = 0 ∧
    claimAtRiskCount (thresholdsOf exClassC5) (activeStudents exClassC5 [exEnrC5]) = 1 := by
  constructor
  · norm_num [calculate_class_statistics, activeStudents, activeRecordIds,
      get_class_enrollments, exClassC5, exEnrC5, exEnr1, exRec2, statsStep]
  · norm_num [claimAtRiskCount, thresholdsOf, defaultThresholds, activeStudents,
      activeRecordIds, get_class_enrollments, exClassC5, exEnrC5, exEnr1, exRec2,
      studentPercentage, List.countP_cons]

/-- C5 witness: the amended theorem applied to a class with two active
records with percentages 50 and 100: two students, mean 75, one at risk,
one excellent. -/
theorem c5_class_statistics_witness :
    calculate_class_statistics exClass1 [exEnr1, exEnr2, exEnr3] =
      { total_students := 2, avg_attendance := 75, at_risk_count := 1,
        excellent_count := 1 } := by
  have h := (c5_class_statistics exClass1 [exEnr1, exEnr2, exEnr3]).2 (by decide)
  have hact : activeStudents exClass1 [exEnr1, exEnr2, exEnr3] = [exRec1, exRec3] := by
    decide
  have hth : thresholdsOf exClass1 = defaultThresholds := rfl
  rw [h, hact, hth]
  have hc1 : countPL exRec1.attendance = 1 := by decide
  have hl1 : exRec1.attendance.length = 2 := by decide
  have hc3 : countPL exRec3.attendance = 1 := by decide
  have hl3 : exRec3.attendance.length = 1 := by decide
  have hp1 : studentPercentage exRec1 = 50 := by
    simp only [studentPercentage, hc1, hl1]
    norm_num
  have hp3 : studentPercentage exRec3 = 100 := by
    simp only [studentPercentage, hc3, hl3]
    norm_num
  have hne1 : exRec1.attendance.isEmpty = false := rfl
  have hne3 : exRec3.attendance.isEmpty = false := rfl
  simp only [atRiskCountCode, excellentCountCode, List.countP_cons, List.countP_nil,
    List.map_cons, List.map_nil, List.sum_cons, List.sum_nil, List.length_cons,
    List.length_nil, hp1, hp3, hne1, hne3, Bool.not_false, Bool.true_and,
    defaultThresholds]
  norm_num [round3, round_eq]

/-! Claim C4: teacher bulk update of the student list. -/

/-- C4 (amended): `update_class` builds the final stored list by walking
the previously stored records and substituting, for each stored record
whose id appears in the incoming list, the incoming record with that id
(the last one on duplicate ids, matching the python dict build); stored
records absent from the incoming list are preserved verbatim — so the
stored ids are exactly preserved and no stored StudentRecord is ever
dropped.  However an incoming record whose id was not previously stored is
discarded rather than added (fourth conjunct; the claim's "union" fails on
such input, see the counterexample). -/
theorem c4_update_class_merge (now : String) (incoming : List StudentRecord)
    (st : ClassState) :
    ((update_class now incoming st).classData.students.map (fun s => s.id) =
       st.classData.students.map (fun s => s.id)) ∧
    (∀ s ∈ st.classData.students, (∀ t ∈ incoming, t.id ≠ s.id) →
       s ∈ (update_class now incoming st).classData.students) ∧
    (∀ s ∈ st.classData.students, ∀ t, lastWithId incoming s.id = some t →
       t ∈ (update_class now incoming st).classData.students) ∧
    (∀ t ∈ incoming, (∀ s ∈ st.classData.students, s.id ≠ t.id) →
       ∀ u ∈ (update_class now incoming st).classData.students, u.id ≠ t.id) := by
  have hfinal : (update_class now incoming st).classData.students =
      st.classData.students.map (fun s =>
        match lastWithId incoming s.id with
        | some t => t
        | none => s) := rfl
  have hid : ∀ s : StudentRecord,
      (match lastWithId incoming s.id with
       | some t => t
       | none => s).id = s.id := by
    intro s
    cases hfound : lastWithId incoming s.id with
    | none => rfl
    | some t =>
        simp only [lastWithId] at hfound
        have h2 := List.find?_some hfound
        simpa [beq_iff_eq] using h2
  refine ⟨?_, ?_, ?_, ?_⟩
  · rw [hfinal, List.map_map]
    refine List.map_congr_left (fun s _ => ?_)
    simpa using hid s
  · intro s hs habs
    have hnone : lastWithId incoming s.id = none := by
      simp only [lastWithId]
      refine List.find?_eq_none.mpr (fun t ht => ?_)
      have htin : t ∈ incoming := List.mem_reverse.mp ht
      simp only [beq_iff_eq]
      exact habs t htin
    have hm := List.mem_map_of_mem (f := fun s : StudentRecord =>
      match lastWithId incoming s.id with
      | some t => t
      | none => s) hs
    rw [hfinal]
    simpa [hnone] using hm
  · intro s hs t ht
    have hm := List.mem_map_of_mem (f := fun s : StudentRecord =>
      match lastWithId incoming s.id with
      | some t => t
      | none => s) hs
    rw [hfinal]
    simpa [ht] using hm
  · intro t _ habs u hu
    rw [hfinal] at hu
    obtain ⟨s, hs, hsu⟩ := List.mem_map.mp hu
    have hus : u.id = s.id := by
      rw [← hsu]
      exact hid s
    rw [hus]
    exact habs s hs

/-- C4 counterexample: the class stores only record 1; the teacher submits
record 1 (renamed) together with a brand-new record 33.  The claim's
union (`claimMergedStudents`, modelled from the spec) contains ids 1 and
33, but the code's final stored list is just id 1: the incoming record 33
is dropped. -/
theorem c4_counterexample :
    ((update_class "2024-06-01" exIncC4 exStC4).classData.students.map (fun s => s.id) =
       [1]) ∧
    ((claimMergedStudents exIncC4 exStC4.classData.students).map (fun s => s.id) =
       [1, 33]) ∧
    (∀ u ∈ (update_class "2024-06-01" exIncC4 exStC4).classData.students, u.id ≠ 33) := by
  refine ⟨by decide, by decide, by decide⟩

/-- C4 witness: stored records 1 and 2, incoming records 1 (renamed) and
42 (new): ids are preserved, the untouched record 2 survives verbatim, the
renamed record replaces record 1, and the new id 42 does not appear. -/
theorem c4_update_class_merge_witness :
    ((update_class "2024-06-02" exIncC4w exStC4w).classData.students.map (fun s => s.id) =
       exStC4w.classData.students.map (fun s => s.id)) ∧
    exRec2 ∈ (update_class "2024-06-02" exIncC4w exStC4w).classData.students ∧
    ({ exRec1 with name := "Alice2" } : StudentRecord) ∈
      (update_class "2024-06-02" exIncC4w exStC4w).classData.students ∧
    (∀ u ∈ (update_class "2024-06-02" exIncC4w exStC4w).classData.students, u.id ≠ 42) := by
  have h := c4_update_class_merge "2024-06-02" exIncC4w exStC4w
  refine ⟨h.1, ?_, ?_, ?_⟩
  · exact h.2.1 exRec2 (by decide) (by decide)
  · exact h.2.2.1 exRec1 (by decide) ({ exRec1 with name := "Alice2" }) (by decide)
  · exact h.2.2.2 ({ exRec3 with id := 42 }) (by decide) (by decide)

/-! Claim C9: what re-enrollment updates. -/

/-- C9 (amended): when an enrollment row for the student exists and none
is active, `enroll_student` re-enrolls: it reports the original
`student_record_id` with status "re-enrolled", flips the first row for the
student to active, stamps `re_enrolled_at`, and updates `roll_no` on that
Enrollment row — but not its `name`, contrary to the claim as stated (see
the counterexample) — while on the StudentRecord located by the original
`student_record_id` it updates both `rollNo` and `name`. -/
theorem c9_reenroll_updates (now : String) (freshId : Nat) (student_id : String)
    (info : StudentInfo) (st : ClassState) (prev : Enrollment) (rec : StudentRecord)
    (hnoact : ∀ e ∈ st.enrollments, isActiveFor student_id e = false)
    (hprev : st.enrollments.find? (fun e => e.student_id == student_id) = some prev)
    (hrec : st.classData.students.find? (fun s => s.id == prev.student_record_id) =
      some rec) :
    ∃ st2,
      enroll_student now freshId student_id info st =
        Except.ok (st2, { student_record_id := prev.student_record_id,
                          status := "re-enrolled" }) ∧
      st2.enrollments.find? (fun e => e.student_id == student_id) =
        some { prev with status := "active", re_enrolled_at := some now,
                         roll_no := info.rollNo } ∧
      st2.classData.students.find? (fun s => s.id == prev.student_record_id) =
        some { rec with rollNo := info.rollNo, name := info.name } := by
  have hany : st.enrollments.any (isActiveFor student_id) = false :=
    any_eq_false_of_all _ _ hnoact
  refine ⟨{ classData := { st.classData with students := (updateFirst (fun s => s.id == prev.student_record_id) (fun s => { s with rollNo := info.rollNo, name := info.name }) st.classData.students) },
            enrollments := (updateFirst (fun e => e.student_id == student_id) (fun e => { e with status := "active", re_enrolled_at := some now, roll_no := info.rollNo }) st.enrollments) }, ?_, ?_, ?_⟩
  · simp [enroll_student, hany, hprev, hrec]
  · have h2 := find?_updateFirst (fun e => e.student_id == student_id) (fun e : Enrollment => { e with status := "active", re_enrolled_at := some now, roll_no := info.rollNo }) (fun e => rfl) st.enrollments
    rw [hprev] at h2
    exact h2
  · have h3 := find?_updateFirst (fun s => s.id == prev.student_record_id) (fun s : StudentRecord => { s with rollNo := info.rollNo, name := info.name }) (fun s => rfl) st.classData.students
    rw [hrec] at h3
    exact h3

/-- C9 counterexample: a re-enrollment whose submitted info carries the
new name "New" while the stored, inactive enrollment row is named "Old".
After `enroll_student` the row's `name` is still "Old": the code only
updates `roll_no` on the Enrollment row, refuting the claim that both
`roll_no` and `name` are updated there. -/
theorem c9_counterexample :
    (match enroll_student "2024-07-01T00:00:00" 999 "bob" exInfoC9 exStC9 with
     | Except.ok p => (p.1.enrollments.find? (fun e => e.student_id == "bob")).map
         (fun e => e.name)
     | Except.error _ => none) = some "Old" ∧
    exInfoC9.name = "New" ∧ ("Old" : String) ≠ "New" := by
  refine ⟨by decide, rfl, by decide⟩

/-- C9 witness: the amended theorem applied to the concrete one-student
state: the row is reactivated with the new roll number but the old name,
and the record takes both the new roll number and the new name. -/
theorem c9_reenroll_updates_witness :
    ∃ st2,
      enroll_student "2024-07-01T00:00:00" 999 "bob" exInfoC9 exStC9 =
        Except.ok (st2, { student_record_id := exEnrC9.student_record_id,
                          status := "re-enrolled" }) ∧
      st2.enrollments.find? (fun e => e.student_id == "bob") =
        some { exEnrC9 with status := "active", re_enrolled_at := some "2024-07-01T00:00:00", roll_no := exInfoC9.rollNo } ∧
      st2.classData.students.find? (fun s => s.id == exEnrC9.student_record_id) =
        some { exRecC9 with rollNo := exInfoC9.rollNo, name := exInfoC9.name } :=
  c9_reenroll_updates "2024-07-01T00:00:00" 999 "bob" exInfoC9 exStC9 exEnrC9 exRecC9
    (by decide) (by decide) (by decide)

/-! Claim C1: enroll, unenroll, re-enroll round trip. -/

/-- Mapping then testing is testing the composite. -/
theorem any_map_general {α β : Type} (f : α → β) (p : β → Bool) (l : List α) :
    (l.map f).any p = l.any (fun a => p (f a)) := by
  induction l with
  | nil => rfl
  | cons a as ih => simp [List.any_cons, ih]

/-- Ledger writes do not change the list of record ids. -/
theorem mark_attendance_map_id (rid : Nat) (d c : String) (l : List StudentRecord) :
    (mark_attendance rid d c l).map (fun s => s.id) = l.map (fun s => s.id) := by
  unfold mark_attendance
  exact map_updateFirst (fun s => s.id == rid)
    (fun s : StudentRecord => { s with attendance := attSet s.attendance d c })
    (fun s => s.id) (fun s => rfl) l

/-- A whole list of ledger writes does not change the list of record ids. -/
theorem marksFold_map_id (marks : List (Nat × String × String)) (l : List StudentRecord) :
    ((marks.foldl (fun l m => mark_attendance m.1 m.2.1 m.2.2 l) l).map (fun s => s.id)) =
      l.map (fun s => s.id) := by
  induction marks generalizing l with
  | nil => rfl
  | cons m ms ih => rw [List.foldl_cons, ih, mark_attendance_map_id]

/-- Searching records by id is determined by the id list. -/
theorem any_by_ids (l : List StudentRecord) (rid : Nat) :
    l.any (fun s => s.id == rid) = (l.map (fun s => s.id)).any (fun i => i == rid) := by
  rw [any_map_general]

/-- A list with a match has a first match. -/
theorem find?_isSome_of_any {α : Type} (p : α → Bool) (l : List α) (h : l.any p = true) :
    ∃ w, l.find? p = some w := by
  induction l with
  | nil => simp at h
  | cons a as ih =>
      by_cases ha : p a = true
      · exact ⟨a, by simp [List.find?_cons, ha]⟩
      · have ha' : p a = false := by simpa using ha
        have h' : as.any p = true := by simpa [List.any_cons, ha'] using h
        obtain ⟨w, hw⟩ := ih h'
        exact ⟨w, by simp [List.find?_cons, ha', hw]⟩

/-- The new-enrollment branch of `enroll_student`, in closed form. -/
theorem enroll_new_eq (now : String) (freshId : Nat) (sid : String) (info : StudentInfo)
    (st : ClassState)
    (hany : st.enrollments.any (isActiveFor sid) = false)
    (hfind : st.enrollments.find? (fun e => e.student_id == sid) = none) :
    enroll_student now freshId sid info st =
      Except.ok (afterNewEnroll now freshId sid info st,
        { student_record_id := freshId, status := "enrolled" }) := by
  simp [enroll_student, hany, hfind, afterNewEnroll, newEnrollmentRecord, newEnrollmentRow]

/-- The re-enrollment branch of `enroll_student` when the record is found,
in closed form. -/
theorem enroll_reenroll_eq (now : String) (freshId : Nat) (sid : String)
    (info : StudentInfo) (st : ClassState) (prev : Enrollment) (w : StudentRecord)
    (hany : st.enrollments.any (isActiveFor sid) = false)
    (hfind : st.enrollments.find? (fun e => e.student_id == sid) = some prev)
    (hw : st.classData.students.find? (fun s => s.id == prev.student_record_id) = some w) :
    enroll_student now freshId sid info st =
      Except.ok
        ({ classData := { st.classData with students := (updateFirst (fun s => s.id == prev.student_record_id) (fun s : StudentRecord => { s with rollNo := info.rollNo, name := info.name }) st.classData.students) },
           enrollments := updateFirst (fun e => e.student_id == sid) (fun e : Enrollment => { e with status := "active", re_enrolled_at := some now, roll_no := info.rollNo }) st.enrollments },
         { student_record_id := prev.student_record_id, status := "re-enrolled" }) := by
  simp [enroll_student, hany, hfind, hw]

/-- Re-enrollment's record update (roll number and name) does not change
which record the id lookup finds, nor its attendance map. -/
theorem find?_attendance_after_update (info : StudentInfo) (l : List StudentRecord)
    (rid : Nat) :
    ((updateFirst (fun s => s.id == rid) (fun s : StudentRecord => { s with rollNo := info.rollNo, name := info.name }) l).find? (fun s => s.id == rid)).map (fun s => s.attendance) =
      (l.find? (fun s => s.id == rid)).map (fun s => s.attendance) := by
  rw [find?_updateFirst (fun s => s.id == rid)
    (fun s : StudentRecord => { s with rollNo := info.rollNo, name := info.name })
    (fun s => rfl) l]
  cases l.find? (fun s => s.id == rid) <;> simp

/-- C1: starting from a state with no enrollment row for the student and a
fresh record id, enrolling creates a new record; after any sequence of
attendance marks, unenrolling succeeds, and re-enrolling reports the same
`student_record_id` as the original enrollment, with the record's
attendance map exactly as it stood just before the unenroll. -/
theorem c1_enroll_roundtrip (st0 : ClassState) (sid : String) (rid rid2 : Nat)
    (info info2 : StudentInfo) (now1 now2 now3 : String)
    (marks : List (Nat × String × String))
    (hno : ∀ e ∈ st0.enrollments, (e.student_id == sid) = false)
    (hfresh : ∀ s ∈ st0.classData.students, (s.id == rid) = false) :
    ∃ st1 res1,
      enroll_student now1 rid sid info st0 = Except.ok (st1, res1) ∧
      res1 = { student_record_id := rid, status := "enrolled" } ∧
      ∃ st3, unenroll_student now2 sid (applyMarks marks st1) = (true, st3) ∧
        ∃ st4 res2,
          enroll_student now3 rid2 sid info2 st3 = Except.ok (st4, res2) ∧
          res2.status = "re-enrolled" ∧
          res2.student_record_id = res1.student_record_id ∧
          recordAttendance st4 rid = recordAttendance (applyMarks marks st1) rid := by
  have hno' : ∀ e ∈ st0.enrollments, isActiveFor sid e = false := fun e he => by
    simp [isActiveFor, hno e he]
  have hany0 : st0.enrollments.any (isActiveFor sid) = false :=
    any_eq_false_of_all _ _ hno'
  have hfind0 : st0.enrollments.find? (fun e => e.student_id == sid) = none :=
    List.find?_eq_none.mpr (fun e he => by simp [hno e he])
  refine ⟨_, _, enroll_new_eq now1 rid sid info st0 hany0 hfind0, rfl, ?_⟩
  have henr2 : (applyMarks marks (afterNewEnroll now1 rid sid info st0)).enrollments =
      st0.enrollments ++ newEnrollmentRow sid rid info st0.classData.id now1 :: [] := rfl
  have hrow : isActiveFor sid (newEnrollmentRow sid rid info st0.classData.id now1) = true := by
    simp [isActiveFor, newEnrollmentRow]
  have hany2 : (applyMarks marks (afterNewEnroll now1 rid sid info st0)).enrollments.any
      (isActiveFor sid) = true := by
    rw [henr2]
    simp [List.any_append, hrow]
  have hupd2 : updateFirst (isActiveFor sid)
      (fun e => { e with status := "inactive", unenrolled_at := some now2 })
      (applyMarks marks (afterNewEnroll now1 rid sid info st0)).enrollments =
      st0.enrollments ++ ({ newEnrollmentRow sid rid info st0.classData.id now1 with status := "inactive", unenrolled_at := some now2 } : Enrollment) :: [] := by
    rw [henr2]
    exact updateFirst_split _ _ _ _ _ hno' hrow
  have hunen : unenroll_student now2 sid (applyMarks marks (afterNewEnroll now1 rid sid info st0)) =
      (true, { applyMarks marks (afterNewEnroll now1 rid sid info st0) with enrollments := (st0.enrollments ++ ({ newEnrollmentRow sid rid info st0.classData.id now1 with status := "inactive", unenrolled_at := some now2 } : Enrollment) :: []) }) := by
    simp [unenroll_student, hany2, hupd2]
  refine ⟨_, hunen, ?_⟩
  have hany3 : (st0.enrollments ++ ({ newEnrollmentRow sid rid info st0.classData.id now1 with status := "inactive", unenrolled_at := some now2 } : Enrollment) :: []).any (isActiveFor sid) = false := by
    simp [List.any_append, hany0, isActiveFor, newEnrollmentRow]
  have hfind3 : (st0.enrollments ++ ({ newEnrollmentRow sid rid info st0.classData.id now1 with status := "inactive", unenrolled_at := some now2 } : Enrollment) :: []).find? (fun e => e.student_id == sid) =
      some ({ newEnrollmentRow sid rid info st0.classData.id now1 with status := "inactive", unenrolled_at := some now2 } : Enrollment) := by
    rw [find?_append_of_none _ _ _ hno]
    simp [List.find?_cons, newEnrollmentRow]
  have hanyM : (marks.foldl (fun l m => mark_attendance m.1 m.2.1 m.2.2 l) (st0.classData.students ++ newEnrollmentRecord rid info :: [])).any (fun s => s.id == rid) = true := by
    rw [any_by_ids, marksFold_map_id, ← any_by_ids]
    simp [List.any_append, any_eq_false_of_all _ _ hfresh, newEnrollmentRecord]
  obtain ⟨w, hw⟩ := find?_isSome_of_any _ _ hanyM
  have hre := enroll_reenroll_eq now3 rid2 sid info2
    ({ applyMarks marks (afterNewEnroll now1 rid sid info st0) with enrollments := (st0.enrollments ++ ({ newEnrollmentRow sid rid info st0.classData.id now1 with status := "inactive", unenrolled_at := some now2 } : Enrollment) :: []) })
    ({ newEnrollmentRow sid rid info st0.classData.id now1 with status := "inactive", unenrolled_at := some now2 } : Enrollment)
    w hany3 hfind3 hw
  refine ⟨_, _, hre, rfl, rfl, ?_⟩
  exact find?_attendance_after_update info2
    (marks.foldl (fun l m => mark_attendance m.1 m.2.1 m.2.2 l) (st0.classData.students ++ newEnrollmentRecord rid info :: [])) rid

/-- C1 witness: the round trip run from an empty class: "alice" enrolls
with fresh record id 100, a "P" is marked for 2024-03-05, she unenrolls
and re-enrolls; the re-enrollment reports record id 100 and finds the
attendance exactly as before the unenroll. -/
theorem c1_enroll_roundtrip_witness :
    ∃ st1 res1,
      enroll_student "2024-03-01T08:00:00" 100 "alice" exInfo1 exStEmpty =
        Except.ok (st1, res1) ∧
      res1 = { student_record_id := 100, status := "enrolled" } ∧
      ∃ st3, unenroll_student "2024-03-06T08:00:00" "alice"
          (applyMarks [(100, "2024-03-05", "P")] st1) = (true, st3) ∧
        ∃ st4 res2,
          enroll_student "2024-03-07T08:00:00" 101 "alice" exInfo2 st3 =
            Except.ok (st4, res2) ∧
          res2.status = "re-enrolled" ∧
          res2.student_record_id = res1.student_record_id ∧
          recordAttendance st4 100 =
            recordAttendance (applyMarks [(100, "2024-03-05", "P")] st1) 100 :=
  c1_enroll_roundtrip exStEmpty "alice" 100 101 exInfo1 exInfo2 "2024-03-01T08:00:00"
    "2024-03-06T08:00:00" "2024-03-07T08:00:00" [(100, "2024-03-05", "P")]
    (by decide) (by decide)
